import Mathlib

set_option maxRecDepth 4000

/-!
Verification development for the RestaurantFinderAgent repository.

The embedding models `src/agent_planner.py` (normalization, deduplication,
scoring, and the radius-expansion orchestration loop) and the provider-error
isolation of `search_restaurants` in `src/restaurant_tools.py`.

Modelling conventions:
* Python floats are modelled as rationals (`ℚ`); Python ints as `ℤ`/`ℕ`.
* Python `None` is `Option.none`; a dict field that may be absent is an
  `Option` field of a structure.
* A Python exception is an `Except.error`; provider fetch collaborators are
  function parameters returning `Except String (List RawItem)`.
* `rapidfuzz.fuzz.token_sort_ratio` is an external library; it is passed in
  as a function parameter `sim : Option String → Option String → ℚ`
  (the source applies it to the two `Place.name` fields, which may be `None`).
* `places.sort(key=..., reverse=True)` is a stable sort; a stable sort with
  respect to a total preorder is extensionally unique, so it is modelled by
  `List.insertionSort` (stable, structurally recursive) over the descending
  key order.
-/

namespace RestaurantFinder

/-- Python `int(x)` on a float: truncation toward zero. -/
def pyInt (q : ℚ) : ℤ := if 0 ≤ q then ⌊q⌋ else -⌊-q⌋

/-- Python `round(x)` to an integer: round half to even (banker's rounding). -/
def pyRoundInt (x : ℚ) : ℤ :=
  let f := ⌊x⌋
  let r := x - f
  if r < 1/2 then f
  else if 1/2 < r then f + 1
  else if 2 ∣ f then f else f + 1

/-- Python `round(x, 3)`: round to 3 decimal places. -/
def round3 (x : ℚ) : ℚ := (pyRoundInt (x * 1000) : ℚ) / 1000

/-- Python `int(s ** 0.5)` for `s ≥ 0`: the integer part of the square root.
For `s ≥ 0`, `⌊√s⌋ = Nat.sqrt ⌊s⌋` (an integer `k` satisfies `k ≤ √s` iff
`k^2 ≤ s` iff `k^2 ≤ ⌊s⌋`). -/
def intSqrt (s : ℚ) : ℕ := Nat.sqrt ⌊s⌋.toNat

/-- Python `x or d` for an optional number `x` (`None` and `0` are falsy). -/
def pyOrQ (x : Option ℚ) (d : ℚ) : ℚ :=
  match x with
  | some v => if v = 0 then d else v
  | none => d

/-- Python `x or d` for an optional int (`None` and `0` are falsy). -/
def pyOrZ (x : Option ℤ) (d : ℤ) : ℤ :=
  match x with
  | some v => if v = 0 then d else v
  | none => d

/-- Python `x or d` for an optional list (`None` and `[]` are falsy). -/
def pyOrL (x : Option (List String)) (d : List String) : List String :=
  match x with
  | some l => if l = [] then d else l
  | none => d

/-- Python `a or b or ""` for optional strings (`None` and `""` are falsy);
models `item.get("id") or item.get("place_id") or ""`. -/
def pyOrStr2 (a b : Option String) : String :=
  match a with
  | some s => if s = "" then (match b with
      | some t => if t = "" then "" else t
      | none => "") else s
  | none => match b with
    | some t => if t = "" then "" else t
    | none => ""

/-- A raw provider record (`Dict[str, Any]`); only the keys read by
`normalize_provider_item` are modelled.  Category/type list entries are
modelled as strings (the source drops non-string entries via
`isinstance(c, str)`, an identity filter on this model). -/
structure RawItem where
  provider : Option String := none
  name : Option String := none
  address : Option String := none
  lat : Option ℚ := none
  lon : Option ℚ := none
  price_level : Option ℤ := none
  price : Option String := none
  types : Option (List String) := none
  categories : Option (List String) := none
  rating : Option ℚ := none
  id : Option String := none
  place_id : Option String := none
  ts : Option ℚ := none
deriving DecidableEq, Repr, Inhabited

/-- The `Place` dataclass of `agent_planner.py`.  The self-referential
`raw["_merged_raw"]` provenance list is modelled by the separate field
`merged_raw` (a dict value cannot literally contain itself in a value model). -/
structure Place where
  name : Option String
  address : String
  lat : ℚ
  lon : ℚ
  price_level : Option ℤ
  cuisines : List String
  dietary_tags : List String
  rating : Option ℚ
  source : String
  source_id : String
  last_checked_ts : ℚ
  raw : RawItem
  merged_raw : Option (List RawItem) := none
  distance_m : Option ℕ := none
  confidence : Option ℚ := none
deriving DecidableEq, Repr

/-- The `UserQuery` dataclass. -/
structure UserQuery where
  lat : ℚ
  lon : ℚ
  radius_m : ℤ
  budget_min : Option ℤ := none
  budget_max : Option ℤ := none
  cuisines : Option (List String) := none
  dietary_restrictions : Option (List String) := none
  preferred_sources : Option (List String) := none
  limit_per_source : ℤ := 8
  expand_on_insufficient_results : Bool := true
deriving DecidableEq, Repr

def MIN_RESULTS_THRESHOLD : ℕ := 3

def MAX_EXPANSIONS : ℕ := 2

/-- `normalize_provider_item` of `agent_planner.py`.  `float(item.get("lat"))`
raises when the key is absent, so the function is partial: `none` models the
raised error.  `time.time()` is the parameter `now`.  `list(set(...))` is
modelled by `List.dedup` (set semantics: membership, no duplicates; iteration
order of a CPython set is not part of the model). -/
def normalize_provider_item (now : ℚ) (item : RawItem) : Option Place :=
  match item.lat, item.lon with
  | some lat, some lon =>
    let provider := item.provider.getD "unknown"
    let price_level : Option ℤ :=
      match item.price_level with
      | some n => some n
      | none =>
        match item.price with
        | some s => some (s.length : ℤ)
        | none => none
    let cuisines0 : List String := (item.types.getD []) ++ (item.categories.getD [])
    some
      { name := item.name
        address := item.address.getD ""
        lat := lat
        lon := lon
        price_level := price_level
        cuisines := (cuisines0.map String.toLower).dedup
        dietary_tags := []
        rating := match item.rating with
          | some r => if r = 0 then none else some r
          | none => none
        source := provider
        source_id := pyOrStr2 item.id item.place_id
        last_checked_ts := item.ts.getD now
        raw := item }
  | _, _ => none

/-- The squared planar distance in meters between two coordinate pairs:
`(abs Δlat · 111000)² + (abs Δlon · 111000)²`.  The source compares
`sqrt(this) < 40`; the model compares `this < 1600`, equivalent since both
sides are nonnegative. -/
def distSqM (lat1 lon1 lat2 lon2 : ℚ) : ℚ :=
  (|lat1 - lat2| * 111000) ^ 2 + (|lon1 - lon2| * 111000) ^ 2

/-- The rating update of the merge branch of `dedupe_and_merge`:
`if p.rating and (m.rating is None or p.rating > m.rating): m.rating = p.rating`.
A rating of `0.0` is falsy in Python, hence never adopted. -/
def ratingMerge (mr pr : Option ℚ) : Option ℚ :=
  match pr with
  | none => mr
  | some r =>
    if r = 0 then mr
    else
      match mr with
      | none => some r
      | some m0 => if m0 < r then some r else some m0

/-- The merge branch of `dedupe_and_merge`: union cuisines and dietary tags,
keep the best rating, extend the provenance list (seeded with the anchor's
own raw record on first merge). -/
def mergePlace (m p : Place) : Place :=
  { m with
    cuisines := (m.cuisines ++ p.cuisines).dedup
    dietary_tags := (m.dietary_tags ++ p.dietary_tags).dedup
    rating := ratingMerge m.rating p.rating
    merged_raw := some ((m.merged_raw.getD [m.raw]) ++ [p.raw]) }

/-- The type of the external fuzzy name-similarity scorer
(`rapidfuzz.fuzz.token_sort_ratio`, a float on a 0–100 scale). -/
abbrev NameSim := Option String → Option String → ℚ

/-- One step of the inner loop of `dedupe_and_merge`: compare the incoming
place `p` against the merged list in order; on the first match
(`name_sim >= threshold and dist < 40`) merge into that anchor, otherwise
append `p` at the end. -/
def dedupe_insert (sim : NameSim) (thr : ℤ) (p : Place) : List Place → List Place
  | [] => [p]
  | m :: rest =>
    if (thr : ℚ) ≤ sim p.name m.name ∧ distSqM p.lat p.lon m.lat m.lon < 1600 then
      mergePlace m p :: rest
    else
      m :: dedupe_insert sim thr p rest

/-- `dedupe_and_merge` of `agent_planner.py`. -/
def dedupe_and_merge (sim : NameSim) (places : List Place) (dedupe_threshold : ℤ := 85) :
    List Place :=
  places.foldl (fun merged p => dedupe_insert sim dedupe_threshold p merged) []

/-- `any(c.lower() in p.cuisines for c in user_query.cuisines)`. -/
def cuisineHit (qc : List String) (p : Place) : Bool :=
  qc.any (fun c => p.cuisines.contains c.toLower)

/-- `any(d.lower() in p.dietary_tags for d in user_query.dietary_restrictions)`. -/
def dietaryHit (qd : List String) (p : Place) : Bool :=
  qd.any (fun d => p.dietary_tags.contains d.toLower)

/-- Python truthiness of an optional list (`if user_query.cuisines:`). -/
def optListTruthy (l : Option (List String)) : Bool :=
  match l with
  | some xs => !xs.isEmpty
  | none => false

/-- The `match_score` computation of `compute_scores`: starts at `1.0`,
`*= 0.6` on a cuisine miss, `*= 0.85` on a dietary miss. -/
def match_score (q : UserQuery) (p : Place) : ℚ :=
  let s1 : ℚ := 1
  let s2 : ℚ :=
    if optListTruthy q.cuisines ∧ ¬ cuisineHit (q.cuisines.getD []) p then s1 * 0.6 else s1
  if optListTruthy q.dietary_restrictions ∧ ¬ dietaryHit (q.dietary_restrictions.getD []) p then
    s2 * 0.85
  else s2

/-- The `price_ok` computation of `compute_scores`: starts `True`; a requested
minimum with unknown or too-low price level clears it, a requested maximum
with unknown or too-high price level clears it. -/
def price_ok (bmin bmax : Option ℤ) (pl : Option ℤ) : Bool :=
  let ok1 : Bool := true
  let ok2 : Bool :=
    match bmin with
    | none => ok1
    | some b =>
      match pl with
      | none => false
      | some v => if v < b then false else ok1
  match bmax with
  | none => ok2
  | some b =>
    match pl with
    | none => false
    | some v => if b < v then false else ok2

/-- The distance estimate of `compute_scores`:
`int(((abs Δlat·111000)² + (abs Δlon·111000)²) ** 0.5)` from the query center. -/
def distEst (q : UserQuery) (p : Place) : ℕ :=
  intSqrt ((|p.lat - q.lat| * 111000) ^ 2 + (|p.lon - q.lon| * 111000) ^ 2)

/-- The per-place body of `compute_scores`: set `distance_m` and `confidence`. -/
def scorePlace (q : UserQuery) (p : Place) : Place :=
  let dist := distEst q p
  let ms := match_score q p
  let rating_score := pyOrQ p.rating 3 / 5
  let distance_penalty := max 0 (1 - (dist : ℚ) / ((max 1 (q.radius_m * 2) : ℤ) : ℚ))
  let price_score : ℚ := if price_ok q.budget_min q.budget_max p.price_level then 1 else 0.7
  { p with
    distance_m := some dist
    confidence :=
      some (round3 (0.4 * ms + 0.3 * rating_score + 0.2 * distance_penalty + 0.1 * price_score)) }

/-- The sort key of `compute_scores`: `(x.confidence or 0, x.rating or 0)`. -/
def sortKey (p : Place) : ℚ × ℚ := (pyOrQ p.confidence 0, pyOrQ p.rating 0)

/-- Lexicographic order on sort keys (Python tuple comparison). -/
def keyLex (x y : ℚ × ℚ) : Prop := x.1 < y.1 ∨ (x.1 = y.1 ∧ x.2 ≤ y.2)

instance : DecidableRel keyLex := fun x y => by
  unfold keyLex; infer_instance

/-- The descending order used by `places.sort(key=..., reverse=True)`:
`a` may precede `b` iff `a`'s key is lexicographically at least `b`'s. -/
def scoreGE (a b : Place) : Prop := keyLex (sortKey b) (sortKey a)

instance : DecidableRel scoreGE := fun a b => by
  unfold scoreGE; infer_instance

instance : IsTotal Place scoreGE :=
  ⟨fun a b => by
    unfold scoreGE keyLex
    rcases lt_trichotomy (sortKey a).1 (sortKey b).1 with h | h | h
    · exact .inr (.inl h)
    · rcases le_total (sortKey a).2 (sortKey b).2 with h2 | h2
      · exact .inr (.inr ⟨h, h2⟩)
      · exact .inl (.inr ⟨h.symm, h2⟩)
    · exact .inl (.inl h)⟩

instance : IsTrans Place scoreGE :=
  ⟨fun a b c hab hbc => by
    unfold scoreGE keyLex at *
    rcases hab with h1 | ⟨e1, le1⟩ <;> rcases hbc with h2 | ⟨e2, le2⟩
    · exact .inl (h2.trans h1)
    · exact .inl (e2 ▸ h1)
    · exact .inl (h2.trans_eq e1)
    · exact .inr ⟨e2.trans e1, le2.trans le1⟩⟩

/-- `compute_scores` of `agent_planner.py`: score every place, then sort by
descending `(confidence or 0, rating or 0)`.  Python's `list.sort` is stable
(also with `reverse=True`); `insertionSort` over `scoreGE` is the stable sort
for that order. -/
def compute_scores (places : List Place) (q : UserQuery) : List Place :=
  List.insertionSort scoreGE (places.map (scorePlace q))

/-- The planner argument dict produced by `call_llm_planner` (the simulated
LLM response: a field-by-field copy of the user query with falsy-default
substitutions). -/
structure PlannerArgs where
  lat : ℚ
  lon : ℚ
  radius_m : ℤ
  budget_min : ℤ
  budget_max : ℤ
  cuisines : List String
  dietary_restrictions : List String
  preferred_sources : List String
  limit_per_source : ℤ
  expand_on_insufficient_results : Bool
deriving DecidableEq, Repr

/-- `call_llm_planner` of `agent_planner.py` (the simulated response). -/
def call_llm_planner (q : UserQuery) : PlannerArgs :=
  { lat := q.lat
    lon := q.lon
    radius_m := q.radius_m
    budget_min := pyOrZ q.budget_min 0
    budget_max := pyOrZ q.budget_max 4
    cuisines := pyOrL q.cuisines []
    dietary_restrictions := pyOrL q.dietary_restrictions []
    preferred_sources := pyOrL q.preferred_sources ["google", "yelp"]
    limit_per_source := q.limit_per_source
    expand_on_insufficient_results := q.expand_on_insufficient_results }

/-- A provider fetch collaborator (`call_google_places_stub` / `call_yelp_stub`
in the source, an arbitrary fetcher in the spec); an exception raised by the
call is an `Except.error`. -/
abbrev Fetcher := PlannerArgs → Except String (List RawItem)

/-- The provider dispatch loop of `run_agent_search`:
`for src in planner_args["preferred_sources"]: ...` with branches for
`"google"`, `"yelp"`, and a pass-through for unknown providers.  An error
raised by a fetch aborts the loop (the source has no try/except here). -/
def fetch_round (gf yf : Fetcher) (pa : PlannerArgs) : Except String (List RawItem) :=
  pa.preferred_sources.foldlM
    (fun acc src =>
      if src = "google" then (gf pa).map (fun xs => acc ++ xs)
      else if src = "yelp" then (yf pa).map (fun xs => acc ++ xs)
      else pure acc)
    []

/-- `places = [normalize_provider_item(r) for r in results_raw]`; a record
missing its coordinates raises, aborting the comprehension. -/
def normalize_all (now : ℚ) (items : List RawItem) : Except String (List Place) :=
  match items.mapM (normalize_provider_item now) with
  | some ps => .ok ps
  | none => .error "MalformedRecord"

/-- One fetch → normalize → dedupe → score round of `run_agent_search`
(the source repeats this block verbatim inside the expansion loop). -/
def run_round (sim : NameSim) (now : ℚ) (gf yf : Fetcher) (pa : PlannerArgs) (q : UserQuery) :
    Except String (List Place) := do
  let raw ← fetch_round gf yf pa
  let ps ← normalize_all now raw
  pure (compute_scores (dedupe_and_merge sim ps) q)

/-- `int(user_query.radius_m * 1.5)`: the radius update on each expansion. -/
def expand_radius (r : ℤ) : ℤ := pyInt ((r : ℚ) * 1.5)

/-- The expansion `while` loop of `run_agent_search`.  The source guard is
`len(places) < MIN_RESULTS_THRESHOLD and user_query.expand_on_insufficient_results
and expansions < max_expansions`; here `fuel = max_expansions - expansions`,
so the third conjunct is `fuel ≠ 0`.  The loop widens `user_query.radius_m`
(tracked as `radius`, used by scoring) but refetches with the unchanged
`planner_args` dict `pa`, exactly as the source does. -/
def expansion_loop (sim : NameSim) (now : ℚ) (gf yf : Fetcher) (pa : PlannerArgs)
    (q : UserQuery) : ℕ → ℤ → List Place → ℕ → Except String (ℤ × List Place × ℕ)
  | 0, radius, places, exps => .ok (radius, places, exps)
  | fuel + 1, radius, places, exps =>
    if places.length < MIN_RESULTS_THRESHOLD ∧ q.expand_on_insufficient_results then
      match run_round sim now gf yf pa { q with radius_m := expand_radius radius } with
      | .error e => .error e
      | .ok ps => expansion_loop sim now gf yf pa q fuel (expand_radius radius) ps (exps + 1)
    else .ok (radius, places, exps)

/-- The result of `run_agent_search`: the ranked places plus the metadata
fields (`planner_args`, `expansions`, `num_results`); `final_radius` is the
value of the mutated `user_query.radius_m` after the run (the timestamp
metadata field is wall-clock time, not modelled). -/
structure AgentResult where
  results : List Place
  expansions : ℕ
  num_results : ℕ
  final_radius : ℤ
  planner_args : PlannerArgs
deriving DecidableEq, Repr

/-- `run_agent_search` of `agent_planner.py`.  The source binds
`planner_args = call_llm_planner(user_query)` once; `call_llm_planner` is
pure, so the binding is written out at each use site. -/
def run_agent_search (sim : NameSim) (now : ℚ) (gf yf : Fetcher) (q : UserQuery)
    (max_expansions : ℕ := MAX_EXPANSIONS) : Except String AgentResult :=
  match run_round sim now gf yf (call_llm_planner q) q with
  | .error e => .error e
  | .ok ps0 =>
    match expansion_loop sim now gf yf (call_llm_planner q) q max_expansions q.radius_m ps0 0 with
    | .error e => .error e
    | .ok (radius, places, exps) =>
      .ok { results := places
            expansions := exps
            num_results := places.length
            final_radius := radius
            planner_args := call_llm_planner q }

/-- `search_restaurants` of `src/restaurant_tools.py`: fetch from both
providers, each call wrapped in its own `try/except` that swallows any error
(in the source the Google call is in fact an undefined name, so it always
raises `NameError` and is always caught).  `R` is the provider record type. -/
def search_restaurants {R : Type}
    (google yelp : (ℚ × ℚ) → Option String → Option String → Except String (List R))
    (location : ℚ × ℚ) (cuisine budget : Option String) : List R :=
  let results : List R := []
  let results := results ++
    (match google location cuisine budget with
     | .ok xs => xs
     | .error _ => [])
  results ++
    (match yelp location cuisine budget with
     | .ok xs => xs
     | .error _ => [])

/-! ### Spec-side definitions

These follow the wording of the specification (scoring §4.3), to be compared
with the source-side `scorePlace`. -/

/-- The match multiplier as the spec states it: starts at 1.0, a 0.6 factor
when the query specifies cuisines and none appear in the place's cuisine set,
a 0.85 factor when it specifies dietary restrictions and none appear in the
place's dietary tags, compounding. -/
def specMatchTerm (q : UserQuery) (p : Place) : ℚ :=
  (if optListTruthy q.cuisines ∧ ¬ cuisineHit (q.cuisines.getD []) p then (0.6 : ℚ) else 1) *
    (if optListTruthy q.dietary_restrictions ∧ ¬ dietaryHit (q.dietary_restrictions.getD []) p then
      (0.85 : ℚ)
    else 1)

/-- The rating term as the spec states it: (rating if present else 3.0) / 5.0. -/
def specRatingTerm (p : Place) : ℚ := p.rating.getD 3 / 5

/-- The distance term as the spec states it: max(0, 1 − distance/(2·radius)). -/
def specDistTerm (q : UserQuery) (p : Place) : ℚ :=
  max 0 (1 - (distEst q p : ℚ) / (2 * (q.radius_m : ℚ)))

/-- A known price level lying within the requested band (each given bound
respected). -/
def withinBand (bmin bmax : Option ℤ) (pl : Option ℤ) : Bool :=
  match pl with
  | none => false
  | some v =>
    (match bmin with
     | none => true
     | some b => decide (b ≤ v)) &&
    (match bmax with
     | none => true
     | some b => decide (v ≤ b))

/-- The price term as the spec states it: 1.0 when no band is requested, or
when the price level is known and within the requested band (unknown price
with a requested band is out-of-band); 0.7 otherwise. -/
def specPriceTerm (q : UserQuery) (p : Place) : ℚ :=
  if q.budget_min = none ∧ q.budget_max = none then 1
  else if withinBand q.budget_min q.budget_max p.price_level then 1 else 0.7

/-! ### Concrete fixtures for witnesses and counterexamples -/

/-- A similarity scorer that always reports 100 (identical names). -/
def simOne : NameSim := fun _ _ => 100

/-- A similarity scorer that always reports exactly the default threshold 85. -/
def sim85 : NameSim := fun _ _ => 85

/-- A similarity scorer reporting 100 on equal names and 0 otherwise (the
value `token_sort_ratio` takes on an identical pair, resp. a fully distinct
pair). -/
def simEq : NameSim := fun x y => if x = y then 100 else 0

def rawG : RawItem :=
  { provider := some "google", name := some "Solo Bistro", address := some "1 Main St",
    lat := some 0, lon := some 0, price_level := some 2, types := some ["restaurant"],
    rating := some (9/2), id := some "g1", ts := some 0 }

def rawG2 : RawItem := { rawG with name := some "Second Spot", id := some "g2", lat := some (1/100) }

def rawG3 : RawItem := { rawG with name := some "Third Spot", id := some "g3", lat := some (2/100) }

/-- A record with a five-character price string and an empty-string category. -/
def rawBad : RawItem :=
  { provider := some "yelp", name := some "Tiny Taco", lat := some 0, lon := some 0,
    price := some "$$$$$", categories := some ["mexican", ""], id := some "y1", ts := some 0 }

/-- A fetch collaborator that always returns exactly one record, regardless of
its arguments. -/
def oneFetch : Fetcher := fun _ => .ok [rawG]

/-- A fetch collaborator that always raises. -/
def errFetch : Fetcher := fun _ => .error "google down"

/-- A radius-sensitive fetch collaborator: three records once asked for a
radius of at least 1200 m, one record otherwise. -/
def radiusProbeFetch : Fetcher :=
  fun pa => if 1200 ≤ pa.radius_m then .ok [rawG, rawG2, rawG3] else .ok [rawG]

/-- A fetch collaborator that raises unless asked with radius exactly 800. -/
def staleProbeFetch : Fetcher := fun pa => if pa.radius_m = 800 then oneFetch pa else .error "unreached"

def qOneSrc : UserQuery := { lat := 0, lon := 0, radius_m := 800, preferred_sources := some ["google"] }

def qTwoSrc : UserQuery :=
  { lat := 0, lon := 0, radius_m := 800, preferred_sources := some ["google", "yelp"] }

def qBounds : UserQuery :=
  { lat := 0, lon := 0, radius_m := 800, budget_min := some 1, budget_max := some 3,
    cuisines := some ["italian"], dietary_restrictions := some ["vegetarian"] }

/-- Cuisine match, dietary match, rating 5.0, distance 0, price within band. -/
def pGood : Place :=
  { name := some "Good Trattoria", address := "", lat := 0, lon := 0, price_level := some 2,
    cuisines := ["italian"], dietary_tags := ["vegetarian"], rating := some 5,
    source := "google", source_id := "g", last_checked_ts := 0, raw := rawG }

/-- No matching cuisine, no dietary match, no rating, distance beyond twice the
radius, unknown price level under a requested band. -/
def pBad : Place :=
  { name := some "Far Cantina", address := "", lat := 1/50, lon := 0, price_level := none,
    cuisines := ["mexican"], dietary_tags := [], rating := none,
    source := "google", source_id := "g2", last_checked_ts := 0, raw := rawG }

def placeA : Place :=
  { name := some "Pasta Palace", address := "", lat := 0, lon := 0, price_level := none,
    cuisines := [], dietary_tags := [], rating := none, source := "google", source_id := "a",
    last_checked_ts := 0, raw := rawG }

/-- Same name as `placeA`, exactly 40 meters of planar distance away
(Δlat · 111000 = 40). -/
def placeB : Place := { placeA with lat := 40/111000, source_id := "b" }

/-- Identical to `placeA` except for its source id (an exact ranking tie). -/
def pTie : Place := { placeA with source_id := "t2" }

def anchorW : Place := { placeA with cuisines := ["a"], rating := none }

def incomingW : Place := { placeB with cuisines := ["b"], rating := some 4 }

/-- The normalization of `rawBad`. -/
def pBadNorm : Place := (normalize_provider_item 0 rawBad).getD placeA

/-- A yelp-shaped fetch collaborator over bare numeric records. -/
def yelpStubW : (ℚ × ℚ) → Option String → Option String → Except String (List ℕ) :=
  fun _ _ _ => .ok [7]

/-- The result of the bounded-expansion scenario: a single-record fetch
collaborator, one preferred source, radius 800, maximum 2 expansions. -/
def resOne : AgentResult :=
  match run_agent_search simOne 0 oneFetch oneFetch qOneSrc 2 with
  | .ok r => r
  | .error _ =>
    { results := [], expansions := 0, num_results := 0, final_radius := 0,
      planner_args := call_llm_planner qOneSrc }

end RestaurantFinder

deriving instance DecidableEq for Except

namespace RestaurantFinder

/-- C2 counterexample: two places whose name similarity is exactly the default
threshold (85) and whose planar distance is exactly the proximity threshold
(40 m from `placeA` to `placeB`, squared distance 1600 = 40²) are NOT merged:
`dedupe_and_merge` keeps both, because the source requires `dist < 40`
strictly. -/
theorem dedupe_exact_threshold_not_merged :
    (85 : ℚ) ≤ sim85 placeB.name placeA.name ∧
    distSqM placeB.lat placeB.lon placeA.lat placeA.lon = 1600 ∧
    (dedupe_and_merge sim85 [placeA, placeB] 85).length = 2 ∧
    (dedupe_and_merge sim85 [placeA, placeB] 85).map Place.source_id = ["a", "b"] := by
  with_unfolding_all decide

/-- C2 (amended): two Place entities are merged by `dedupe_and_merge` if and
only if their name similarity is at or above the threshold AND their squared
planar distance (lat/lon delta × 111000 m/degree, combined Euclidean) is
strictly below 40² = 1600, i.e. the distance is strictly below 40 m.  At
similarity exactly at the threshold and distance strictly below 40 m they are
merged; at distance at or beyond 40 m, or similarity strictly below the
threshold, they are not. -/
theorem dedupe_pair_merged_iff (sim : NameSim) (thr : ℤ) (a b : Place) :
    (dedupe_and_merge sim [a, b] thr).length = 1 ↔
      ((thr : ℚ) ≤ sim b.name a.name ∧ distSqM b.lat b.lon a.lat a.lon < 1600) := by
  have hstep : dedupe_and_merge sim [a, b] thr =
      if (thr : ℚ) ≤ sim b.name a.name ∧ distSqM b.lat b.lon a.lat a.lon < 1600 then
        [mergePlace a b]
      else [a, b] := by
    simp only [dedupe_and_merge, List.foldl, dedupe_insert]
  rw [hstep]
  split_ifs with h
  · simpa using h
  · simpa using h

/-- C5 counterexample: normalizing a record with a five-character price string
and an empty-string category yields `price_level = 5` (outside [0,4]) and an
empty string inside `cuisines`. -/
theorem normalize_price_string_overflow :
    (normalize_provider_item 0 rawBad).map (fun p => (p.price_level, p.cuisines.contains "")) =
      some (some 5, true) := by
  with_unfolding_all decide

theorem mergePlace_nodup (m p : Place) :
    (mergePlace m p).cuisines.Nodup ∧ (mergePlace m p).dietary_tags.Nodup :=
  ⟨List.nodup_dedup _, List.nodup_dedup _⟩

theorem dedupe_insert_forall {P : Place → Prop} (hmerge : ∀ m p, P (mergePlace m p))
    (sim : NameSim) (thr : ℤ) (p : Place) (hp : P p) :
    ∀ merged : List Place, (∀ x ∈ merged, P x) → ∀ x ∈ dedupe_insert sim thr p merged, P x := by
  intro merged
  induction merged with
  | nil =>
    intro _ x hx
    simp only [dedupe_insert, List.mem_singleton] at hx
    exact hx ▸ hp
  | cons m rest ih =>
    intro hm x hx
    simp only [dedupe_insert] at hx
    split_ifs at hx with h
    · rcases List.mem_cons.mp hx with rfl | hx
      · exact hmerge m p
      · exact hm x (List.mem_cons_of_mem _ hx)
    · rcases List.mem_cons.mp hx with rfl | hx
      · exact hm x (List.mem_cons_self _ _)
      · exact ih (fun y hy => hm y (List.mem_cons_of_mem _ hy)) x hx

theorem dedupe_and_merge_forall {P : Place → Prop} (hmerge : ∀ m p, P (mergePlace m p))
    (sim : NameSim) (thr : ℤ) (places : List Place) (h : ∀ x ∈ places, P x) :
    ∀ x ∈ dedupe_and_merge sim places thr, P x := by
  have key : ∀ ps acc : List Place, (∀ x ∈ acc, P x) → (∀ x ∈ ps, P x) →
      ∀ x ∈ ps.foldl (fun merged p => dedupe_insert sim thr p merged) acc, P x := by
    intro ps
    induction ps with
    | nil => intro acc hacc _ x hx; exact hacc x hx
    | cons p rest ih =>
      intro acc hacc hps x hx
      simp only [List.foldl] at hx
      exact ih _
        (dedupe_insert_forall hmerge sim thr p (hps p (List.mem_cons_self _ _)) acc hacc)
        (fun y hy => hps y (List.mem_cons_of_mem _ hy)) x hx
  exact key places [] (by simp) h

/-- C5 (amended): every Place produced by `normalize_provider_item` and every
Place after `dedupe_and_merge` (on inputs satisfying the invariant) has
duplicate-free `cuisines` and `dietary_tags`; empty strings may appear when a
raw category list contains them, and `price_level` is the raw numeric tier if
present, else the length of the price string (unclamped, so it exceeds 4 for
strings longer than four characters), else unknown. -/
theorem normalize_dedupe_invariants :
    (∀ now item p, normalize_provider_item now item = some p →
      p.cuisines.Nodup ∧ p.dietary_tags.Nodup ∧
      p.price_level = (match item.price_level, item.price with
        | some n, _ => some n
        | none, some s => some (s.length : ℤ)
        | none, none => none)) ∧
    (∀ (sim : NameSim) (thr : ℤ) places,
      (∀ x ∈ places, x.cuisines.Nodup ∧ x.dietary_tags.Nodup) →
      ∀ p ∈ dedupe_and_merge sim places thr, p.cuisines.Nodup ∧ p.dietary_tags.Nodup) := by
  constructor
  · intro now item p hp
    unfold normalize_provider_item at hp
    rcases hlat : item.lat with _ | lat <;> rw [hlat] at hp <;>
      rcases hlon : item.lon with _ | lon <;> rw [hlon] at hp <;>
      try exact Option.noConfusion hp
    injection hp with hp
    subst hp
    refine ⟨List.nodup_dedup _, List.nodup_nil, ?_⟩
    rcases item.price_level with _ | n <;> rcases item.price with _ | s <;> rfl
  · intro sim thr places h
    exact dedupe_and_merge_forall (fun m p => mergePlace_nodup m p) sim thr places h

/-- C5 witness: the amended invariant applied to the concrete record
`rawBad`. -/
theorem normalize_dedupe_invariants_witness :
    pBadNorm.cuisines.Nodup ∧ pBadNorm.dietary_tags.Nodup ∧ pBadNorm.price_level = some 5 := by
  have h := normalize_dedupe_invariants.1 0 rawBad pBadNorm (by with_unfolding_all rfl)
  refine ⟨h.1, h.2.1, ?_⟩
  rw [h.2.2]
  with_unfolding_all rfl

theorem natSqrt_eq_of {n k : ℕ} (h1 : k * k ≤ n) (h2 : n < (k + 1) * (k + 1)) :
    Nat.sqrt n = k :=
  le_antisymm (Nat.lt_succ_iff.mp (Nat.sqrt_lt.mpr h2)) (Nat.le_sqrt.mpr h1)

theorem intSqrt_eq {s : ℚ} (k : ℕ) (h1 : (k * k : ℚ) ≤ s) (h2 : s < ((k + 1) * (k + 1) : ℕ)) :
    intSqrt s = k := by
  have hlo : ((k * k : ℕ) : ℤ) ≤ ⌊s⌋ := Int.le_floor.mpr (by exact_mod_cast h1)
  have hhi : ⌊s⌋ < (((k + 1) * (k + 1) : ℕ) : ℤ) := Int.floor_lt.mpr (by exact_mod_cast h2)
  unfold intSqrt
  exact natSqrt_eq_of (by omega) (by omega)

theorem compute_scores_singleton (q : UserQuery) (p : Place) :
    compute_scores [p] q = [scorePlace q p] := rfl

theorem worst_distEst : distEst qBounds pBad = 2220 := by
  have hsum : (|pBad.lat - qBounds.lat| * 111000) ^ 2 + (|pBad.lon - qBounds.lon| * 111000) ^ 2 =
      (4928400 : ℚ) := by
    norm_num [pBad, qBounds, abs_of_nonneg]
  unfold distEst
  rw [hsum]
  exact intSqrt_eq 2220 (by norm_num) (by norm_num)

theorem good_distEst : distEst qBounds pGood = 0 := by
  have hsum : (|pGood.lat - qBounds.lat| * 111000) ^ 2 + (|pGood.lon - qBounds.lon| * 111000) ^ 2 =
      (0 : ℚ) := by
    norm_num [pGood, qBounds]
  unfold distEst
  rw [hsum]
  exact intSqrt_eq 0 (by norm_num) (by norm_num)

theorem worst_case_confidence : (scorePlace qBounds pBad).confidence = some 0.454 := by
  have hm : match_score qBounds pBad = 0.51 := by with_unfolding_all decide
  have hpr : price_ok qBounds.budget_min qBounds.budget_max pBad.price_level = false := by
    with_unfolding_all decide
  have hrt : pyOrQ pBad.rating 3 = 3 := by with_unfolding_all decide
  have hmax : (max 1 (qBounds.radius_m * 2) : ℤ) = 1600 := by with_unfolding_all decide
  simp only [scorePlace, worst_distEst, hm, hpr, hrt, hmax]
  norm_num [round3, pyRoundInt]

theorem good_case_confidence : (scorePlace qBounds pGood).confidence = some 1 := by
  have hm : match_score qBounds pGood = 1 := by with_unfolding_all decide
  have hpr : price_ok qBounds.budget_min qBounds.budget_max pGood.price_level = true := by
    with_unfolding_all decide
  have hrt : pyOrQ pGood.rating 3 = 5 := by with_unfolding_all decide
  have hmax : (max 1 (qBounds.radius_m * 2) : ℤ) = 1600 := by with_unfolding_all decide
  simp only [scorePlace, good_distEst, hm, hpr, hrt, hmax]
  norm_num [round3, pyRoundInt]

theorem worst_case_eval :
    (compute_scores [pBad] qBounds).map Place.confidence = [some 0.454] := by
  rw [compute_scores_singleton, List.map_singleton, worst_case_confidence]

theorem good_case_eval :
    (compute_scores [pGood] qBounds).map Place.confidence = [some 1] := by
  rw [compute_scores_singleton, List.map_singleton, good_case_confidence]

/-- C6 counterexample: for a Place with no matching cuisine, no dietary match,
no rating, distance beyond twice the radius, and out-of-band price, the
confidence is `0.4×0.6×0.85 + 0.3×0.6 + 0 + 0.1×0.7 = 0.454`, not the
`0.383` the spec computes. -/
theorem compute_scores_worst_case_value :
    (compute_scores [pBad] qBounds).map Place.confidence = [some 0.454] ∧
      (0.454 : ℚ) ≠ 0.383 :=
  ⟨worst_case_eval, by norm_num⟩

/-- C6 (amended): under the documented weights, confidence rounds to 1.0 for
a Place with cuisine match, dietary match, rating 5.0, distance 0, and price
within the requested band; and to 0.454 for a Place with no matching cuisine,
no dietary match, no rating, distance beyond twice the radius, and
out-of-band price. -/
theorem compute_scores_documented_bounds :
    (compute_scores [pGood] qBounds).map Place.confidence = [some 1] ∧
    (compute_scores [pBad] qBounds).map Place.confidence = [some 0.454] :=
  ⟨good_case_eval, worst_case_eval⟩

/-- C7 counterexample: in `run_agent_search` an error raised by the google
fetch collaborator aborts the whole round — the yelp collaborator's record
(which the planner_args round would have produced) is discarded and the run
returns the error. -/
theorem run_agent_search_provider_error_aborts :
    run_agent_search simOne 0 errFetch oneFetch qTwoSrc 2 = .error "google down" ∧
    oneFetch (call_llm_planner qTwoSrc) = .ok [rawG] := by
  with_unfolding_all decide

/-- C7 (amended): per-provider partial-failure isolation holds in
`search_restaurants` (restaurant_tools.py): a provider whose call raises
contributes nothing, and the other provider's records are returned unchanged;
`run_agent_search` in agent_planner.py, by contrast, propagates fetch errors. -/
theorem search_restaurants_partial_failure_isolation {R : Type}
    (google yelp : (ℚ × ℚ) → Option String → Option String → Except String (List R))
    (loc : ℚ × ℚ) (cuisine budget : Option String) (e : String) :
    (∀ ys, yelp loc cuisine budget = .ok ys →
      search_restaurants (fun _ _ _ => .error e) yelp loc cuisine budget = ys) ∧
    (∀ xs, google loc cuisine budget = .ok xs →
      search_restaurants google (fun _ _ _ => .error e) loc cuisine budget = xs) := by
  constructor
  · intro ys hy
    simp [search_restaurants, hy]
  · intro xs hx
    simp [search_restaurants, hx]

/-- C7 witness: with a raising google collaborator and a yelp collaborator
returning `[7]`, `search_restaurants` returns `[7]`. -/
theorem search_restaurants_partial_failure_isolation_witness :
    search_restaurants (fun _ _ _ => .error "boom") yelpStubW (0, 0) none none = [7] :=
  (search_restaurants_partial_failure_isolation (fun _ _ _ => .error "boom") yelpStubW
    (0, 0) none none "boom").1 [7] rfl

/-- C8: for the merge step performed by `dedupe_and_merge` (`mergePlace`, the
body of its merge branch): the merged cuisine and dietary tag sets contain
both inputs' sets; a rated anchor's rating never decreases; an unrated anchor
adopts any duplicate rated nonzero (Python truthiness: a 0.0 incoming rating
is falsy and never adopted — see C10); and the rating changes only when the
incoming rating is present and strictly higher than the anchor's (or the
anchor was unrated). -/
theorem mergePlace_monotonicity (m p : Place) :
    (∀ x ∈ m.cuisines, x ∈ (mergePlace m p).cuisines) ∧
    (∀ x ∈ p.cuisines, x ∈ (mergePlace m p).cuisines) ∧
    (∀ x ∈ m.dietary_tags, x ∈ (mergePlace m p).dietary_tags) ∧
    (∀ x ∈ p.dietary_tags, x ∈ (mergePlace m p).dietary_tags) ∧
    (∀ r, m.rating = some r → ∃ r2, (mergePlace m p).rating = some r2 ∧ r ≤ r2) ∧
    (∀ r, p.rating = some r → r ≠ 0 → m.rating = none → (mergePlace m p).rating = some r) ∧
    ((mergePlace m p).rating ≠ m.rating →
      ∃ r, p.rating = some r ∧ (m.rating = none ∨ ∃ r0, m.rating = some r0 ∧ r0 < r)) := by
  refine ⟨?_, ?_, ?_, ?_, ?_, ?_, ?_⟩
  · intro x hx
    simp only [mergePlace, List.mem_dedup, List.mem_append]
    exact .inl hx
  · intro x hx
    simp only [mergePlace, List.mem_dedup, List.mem_append]
    exact .inr hx
  · intro x hx
    simp only [mergePlace, List.mem_dedup, List.mem_append]
    exact .inl hx
  · intro x hx
    simp only [mergePlace, List.mem_dedup, List.mem_append]
    exact .inr hx
  · intro r hm
    simp only [mergePlace, ratingMerge, hm]
    rcases p.rating with _ | pr
    · exact ⟨r, rfl, le_rfl⟩
    · simp only []
      split_ifs with h0 hlt
      · exact ⟨r, rfl, le_rfl⟩
      · exact ⟨pr, rfl, le_of_lt hlt⟩
      · exact ⟨r, rfl, le_rfl⟩
  · intro r hp h0 hm
    simp only [mergePlace, ratingMerge, hp, hm, if_neg h0]
  · intro hne
    rcases hp : p.rating with _ | pr
    · rw [show (mergePlace m p).rating = m.rating by simp [mergePlace, ratingMerge, hp]] at hne
      exact absurd rfl hne
    · refine ⟨pr, rfl, ?_⟩
      by_cases h0 : pr = 0
      · rw [show (mergePlace m p).rating = m.rating by
          simp [mergePlace, ratingMerge, hp, h0]] at hne
        exact absurd rfl hne
      · rcases hm : m.rating with _ | mr
        · exact .inl rfl
        · by_cases hlt : mr < pr
          · exact .inr ⟨mr, rfl, hlt⟩
          · rw [show (mergePlace m p).rating = m.rating by
              simp [mergePlace, ratingMerge, hp, h0, hm, hlt]] at hne
            exact absurd rfl hne

/-- C8 witness: an unrated anchor adopts the incoming rating 4 and the merged
cuisine set contains both inputs' entries. -/
theorem mergePlace_monotonicity_witness :
    (mergePlace anchorW incomingW).rating = some 4 ∧
    "a" ∈ (mergePlace anchorW incomingW).cuisines ∧
    "b" ∈ (mergePlace anchorW incomingW).cuisines :=
  ⟨(mergePlace_monotonicity anchorW incomingW).2.2.2.2.2.1 4 rfl (by norm_num) rfl,
   (mergePlace_monotonicity anchorW incomingW).1 "a" (by with_unfolding_all decide),
   (mergePlace_monotonicity anchorW incomingW).2.1 "b" (by with_unfolding_all decide)⟩

/-- C10: a raw rating of 0 is normalized to an unknown rating (`float(rating)
if rating else None` — 0 is falsy); a 0.0 incoming rating never replaces the
anchor's rating in the merge step, even for an unrated anchor (`if p.rating
and ...`); and a zero or absent rating is scored with the neutral default 3.0
(`p.rating or 3.0`), so the confidence is the same as for an absent rating. -/
theorem zero_rating_treated_as_absent :
    (∀ now item p, item.rating = some 0 → normalize_provider_item now item = some p →
      p.rating = none) ∧
    (∀ m p, p.rating = some 0 → (mergePlace m p).rating = m.rating) ∧
    (∀ p : Place, p.rating = some 0 ∨ p.rating = none → pyOrQ p.rating 3 = 3) ∧
    (∀ q p, p.rating = some 0 →
      (scorePlace q p).confidence = (scorePlace q { p with rating := none }).confidence) := by
  refine ⟨?_, ?_, ?_, ?_⟩
  · intro now item p hr hp
    unfold normalize_provider_item at hp
    rcases hlat : item.lat with _ | lat <;> rw [hlat] at hp <;>
      rcases hlon : item.lon with _ | lon <;> rw [hlon] at hp <;>
      try exact Option.noConfusion hp
    injection hp with hp
    subst hp
    simp [hr]
  · intro m p hp
    simp [mergePlace, ratingMerge, hp]
  · intro p hp
    rcases hp with hp | hp <;> simp [pyOrQ, hp]
  · intro q p hp
    simp [scorePlace, pyOrQ, hp, match_score, cuisineHit, dietaryHit, price_ok, distEst,
      optListTruthy]
/-- C10 witness: the merge step leaves the anchor's rating untouched when the
incoming rating is 0.0, and the rating term for a zero rating is the neutral
default 3. -/
theorem zero_rating_treated_as_absent_witness :
    (mergePlace placeA { placeA with rating := some 0 }).rating = placeA.rating ∧
    pyOrQ (Place.rating { placeA with rating := some 0 }) 3 = 3 :=
  ⟨zero_rating_treated_as_absent.2.1 placeA { placeA with rating := some 0 } rfl,
   zero_rating_treated_as_absent.2.2.1 { placeA with rating := some 0 } (.inl rfl)⟩

/-- C9: `compute_scores` returns the scored places reordered by descending
`(confidence or 0, rating or 0)` (confidence descending, rating as the
descending tie-break, missing values treated as 0), as a permutation of the
scored input; and the sort is stable: two scored places with exactly equal
keys keep their original relative order. -/
theorem compute_scores_ranking (q : UserQuery) (ps : List Place) :
    (compute_scores ps q).Perm (ps.map (scorePlace q)) ∧
    (compute_scores ps q).Pairwise (fun a b =>
      pyOrQ b.confidence 0 < pyOrQ a.confidence 0 ∨
        (pyOrQ b.confidence 0 = pyOrQ a.confidence 0 ∧ pyOrQ b.rating 0 ≤ pyOrQ a.rating 0)) ∧
    (∀ a b, sortKey a = sortKey b → [a, b].Sublist (ps.map (scorePlace q)) →
      [a, b].Sublist (compute_scores ps q)) := by
  refine ⟨List.perm_insertionSort _ _, ?_, ?_⟩
  · exact List.sorted_insertionSort scoreGE (ps.map (scorePlace q))
  · intro a b hk hsub
    refine List.pair_sublist_insertionSort ?_ hsub
    unfold scoreGE keyLex
    rw [hk]
    exact .inr ⟨rfl, le_rfl⟩

/-- C9 witness: two places identical up to `source_id` (an exact tie in both
confidence and rating) keep their original relative order through
`compute_scores`. -/
theorem compute_scores_ranking_witness :
    [scorePlace qOneSrc placeA, scorePlace qOneSrc pTie].Sublist
      (compute_scores [placeA, pTie] qOneSrc) :=
  (compute_scores_ranking qOneSrc [placeA, pTie]).2.2 (scorePlace qOneSrc placeA)
    (scorePlace qOneSrc pTie) (by with_unfolding_all decide) (List.Sublist.refl _)

theorem match_score_eq_spec (q : UserQuery) (p : Place) : match_score q p = specMatchTerm q p := by
  unfold match_score specMatchTerm
  split_ifs <;> ring

theorem rating_term_eq_spec {p : Place} (h : p.rating ≠ some 0) :
    pyOrQ p.rating 3 = p.rating.getD 3 := by
  rcases hr : p.rating with _ | r
  · rfl
  · have hr0 : r ≠ 0 := by
      intro h0
      exact h (by rw [hr, h0])
    simp [pyOrQ, hr0]

theorem dist_term_eq_spec (q : UserQuery) (p : Place) (hr : 1 ≤ q.radius_m) :
    max 0 (1 - (distEst q p : ℚ) / ((max 1 (q.radius_m * 2) : ℤ) : ℚ)) = specDistTerm q p := by
  unfold specDistTerm
  rw [max_eq_right (by omega : (1 : ℤ) ≤ q.radius_m * 2)]
  push_cast
  ring_nf

theorem price_term_eq_spec (bmin bmax pl : Option ℤ) :
    (if price_ok bmin bmax pl then (1 : ℚ) else 0.7) =
      (if bmin = none ∧ bmax = none then 1
       else if withinBand bmin bmax pl then 1 else 0.7) := by
  rcases bmin with _ | b1 <;> rcases bmax with _ | b2 <;> rcases pl with _ | v <;>
    simp only [price_ok, withinBand] <;> split_ifs <;> simp_all <;> omega

theorem scorePlace_confidence (q : UserQuery) (p : Place) (hr : 1 ≤ q.radius_m)
    (hrat : p.rating ≠ some 0) :
    (scorePlace q p).confidence = some (round3 (0.4 * specMatchTerm q p +
      0.3 * specRatingTerm p + 0.2 * specDistTerm q p + 0.1 * specPriceTerm q p)) := by
  unfold scorePlace
  simp only [match_score_eq_spec, rating_term_eq_spec hrat, dist_term_eq_spec q p hr,
    price_term_eq_spec]
  rfl

theorem specTerms_scorePlace (q : UserQuery) (p : Place) :
    specMatchTerm q (scorePlace q p) = specMatchTerm q p ∧
    specRatingTerm (scorePlace q p) = specRatingTerm p ∧
    specDistTerm q (scorePlace q p) = specDistTerm q p ∧
    specPriceTerm q (scorePlace q p) = specPriceTerm q p :=
  ⟨rfl, rfl, rfl, rfl⟩

/-- C1: every Place in the scored list has
confidence = round3(0.4·match + 0.3·rating_term + 0.2·distance_term +
0.1·price_term), with the terms as the spec defines them (`specMatchTerm`,
`specRatingTerm`, `specDistTerm`, `specPriceTerm`).  Hypotheses: the radius is
at least 1 (the source divides by `max(1, 2·radius)`, the claim by
`2·radius`), and no input rating is exactly 0 (the normalizer never produces
one — see C10; for a 0.0 rating the source would fall back to the 3.0
default while the claim's "rating if present" would not). -/
theorem compute_scores_confidence_formula (q : UserQuery) (ps : List Place)
    (hr : 1 ≤ q.radius_m) (h0 : ∀ x ∈ ps, x.rating ≠ some 0) :
    ∀ p ∈ compute_scores ps q,
      p.confidence = some (round3 (0.4 * specMatchTerm q p + 0.3 * specRatingTerm p +
        0.2 * specDistTerm q p + 0.1 * specPriceTerm q p)) := by
  intro p hp
  rw [compute_scores] at hp
  have hp2 : p ∈ ps.map (scorePlace q) := (List.mem_insertionSort scoreGE).mp hp
  rcases List.mem_map.mp hp2 with ⟨p0, hp0, rfl⟩
  rw [(specTerms_scorePlace q p0).1, (specTerms_scorePlace q p0).2.1,
    (specTerms_scorePlace q p0).2.2.1, (specTerms_scorePlace q p0).2.2.2]
  exact scorePlace_confidence q p0 hr (h0 p0 hp0)

/-- C1 witness: the formula applied to the concrete query `qBounds` and place
`pGood`. -/
theorem compute_scores_confidence_formula_witness :
    (scorePlace qBounds pGood).confidence = some (round3 (
      0.4 * specMatchTerm qBounds (scorePlace qBounds pGood) +
      0.3 * specRatingTerm (scorePlace qBounds pGood) +
      0.2 * specDistTerm qBounds (scorePlace qBounds pGood) +
      0.1 * specPriceTerm qBounds (scorePlace qBounds pGood))) :=
  compute_scores_confidence_formula qBounds [pGood] (by norm_num [qBounds])
    (by
      intro x hx
      rw [List.mem_singleton] at hx
      subst hx
      norm_num [pGood])
    (scorePlace qBounds pGood)
    (by rw [compute_scores_singleton]; exact List.mem_singleton_self _)

theorem expansion_loop_spec (sim : NameSim) (now : ℚ) (gf yf : Fetcher) (pa : PlannerArgs)
    (q : UserQuery) (fuel : ℕ) :
    ∀ radius places exps r2 ps2 e2,
      expansion_loop sim now gf yf pa q fuel radius places exps = .ok (r2, ps2, e2) →
      exps ≤ e2 ∧ e2 ≤ exps + fuel ∧ r2 = expand_radius^[e2 - exps] radius ∧
        (e2 = exps ∨ (places.length < MIN_RESULTS_THRESHOLD ∧
          q.expand_on_insufficient_results = true)) := by
  induction fuel with
  | zero =>
    intro radius places exps r2 ps2 e2 h
    unfold expansion_loop at h
    simp only [Except.ok.injEq, Prod.mk.injEq] at h
    obtain ⟨rfl, rfl, rfl⟩ := h
    exact ⟨le_rfl, by omega, by simp, .inl rfl⟩
  | succ n ih =>
    intro radius places exps r2 ps2 e2 h
    unfold expansion_loop at h
    split_ifs at h with hg
    · cases hrr : run_round sim now gf yf pa { q with radius_m := expand_radius radius } with
      | error e =>
        rw [hrr] at h
        exact Except.noConfusion h
      | ok ps =>
        rw [hrr] at h
        obtain ⟨h1, h2, h3, _⟩ := ih (expand_radius radius) ps (exps + 1) r2 ps2 e2 h
        refine ⟨by omega, by omega, ?_, .inr hg⟩
        rw [h3, ← Function.iterate_succ_apply]
        congr 1
        omega
    · simp only [Except.ok.injEq, Prod.mk.injEq] at h
      obtain ⟨rfl, rfl, rfl⟩ := h
      exact ⟨le_rfl, by omega, by simp, .inl rfl⟩

/-- C3: for every run, the number of expansions never exceeds the configured
maximum; each expansion multiplies the (user query's) radius by 1.5 — the
final radius is the expansion-count-fold of `int(r * 1.5)` over the initial
radius; an expansion occurs only when expansion is enabled and the strict
guard `initial result count < MIN_RESULTS_THRESHOLD` held; and in the
concrete scenario (fetch collaborator always returning one record, threshold
3, maximum 2), exactly 2 expansions occur, the radius goes 800 → 1200 → 1800,
and the metadata reports expansions = 2. -/
theorem run_agent_search_expansion_bounds :
    (∀ (sim : NameSim) (now : ℚ) (gf yf : Fetcher) (q : UserQuery) (maxExp : ℕ)
        (res : AgentResult),
      run_agent_search sim now gf yf q maxExp = .ok res →
      res.expansions ≤ maxExp ∧
      res.final_radius = expand_radius^[res.expansions] q.radius_m ∧
      (0 < res.expansions →
        q.expand_on_insufficient_results = true ∧
        ∃ ps0, run_round sim now gf yf (call_llm_planner q) q = .ok ps0 ∧
          ps0.length < MIN_RESULTS_THRESHOLD)) ∧
    expand_radius 800 = 1200 ∧ expand_radius 1200 = 1800 ∧
    (run_agent_search simOne 0 oneFetch oneFetch qOneSrc 2).map
      (fun r => (r.expansions, r.final_radius, r.num_results)) = .ok (2, 1800, 1) := by
  refine ⟨?_, by with_unfolding_all decide, by with_unfolding_all decide,
    by with_unfolding_all decide⟩
  intro sim now gf yf q maxExp res h
  unfold run_agent_search at h
  cases hrr : run_round sim now gf yf (call_llm_planner q) q with
  | error e =>
    rw [hrr] at h
    exact Except.noConfusion h
  | ok ps0 =>
    rw [hrr] at h
    dsimp only at h
    cases hloop : expansion_loop sim now gf yf (call_llm_planner q) q maxExp q.radius_m ps0 0 with
    | error e =>
      rw [hloop] at h
      exact Except.noConfusion h
    | ok t =>
      obtain ⟨r2, ps2, e2⟩ := t
      rw [hloop] at h
      dsimp only at h
      simp only [Except.ok.injEq] at h
      subst h
      dsimp only
      obtain ⟨h1, h2, h3, h4⟩ := expansion_loop_spec sim now gf yf (call_llm_planner q) q
        maxExp q.radius_m ps0 0 r2 ps2 e2 hloop
      refine ⟨by omega, by simpa using h3, ?_⟩
      intro hpos
      rcases h4 with h4 | h4
      · omega
      · exact ⟨h4.2, ps0, rfl, h4.1⟩

/-- C3 witness: the general bounds applied to the concrete one-record
scenario. -/
theorem run_agent_search_expansion_bounds_witness :
    resOne.expansions ≤ 2 ∧
    resOne.final_radius = expand_radius^[resOne.expansions] qOneSrc.radius_m :=
  ⟨(run_agent_search_expansion_bounds.1 simOne 0 oneFetch oneFetch qOneSrc 2 resOne
      (by with_unfolding_all rfl)).1,
   (run_agent_search_expansion_bounds.1 simOne 0 oneFetch oneFetch qOneSrc 2 resOne
      (by with_unfolding_all rfl)).2.1⟩

theorem fetch_round_congr (gf yf gf2 yf2 : Fetcher) (pa : PlannerArgs)
    (hg : gf pa = gf2 pa) (hy : yf pa = yf2 pa) :
    fetch_round gf yf pa = fetch_round gf2 yf2 pa := by
  unfold fetch_round
  simp only [hg, hy]

theorem run_round_congr (sim : NameSim) (now : ℚ) (gf yf gf2 yf2 : Fetcher) (pa : PlannerArgs)
    (q : UserQuery) (hg : gf pa = gf2 pa) (hy : yf pa = yf2 pa) :
    run_round sim now gf yf pa q = run_round sim now gf2 yf2 pa q := by
  unfold run_round
  rw [fetch_round_congr gf yf gf2 yf2 pa hg hy]

theorem expansion_loop_congr (sim : NameSim) (now : ℚ) (gf yf gf2 yf2 : Fetcher)
    (pa : PlannerArgs) (q : UserQuery) (hg : gf pa = gf2 pa) (hy : yf pa = yf2 pa) (fuel : ℕ) :
    ∀ radius places exps,
      expansion_loop sim now gf yf pa q fuel radius places exps =
        expansion_loop sim now gf2 yf2 pa q fuel radius places exps := by
  induction fuel with
  | zero =>
    intro radius places exps
    rfl
  | succ n ih =>
    intro radius places exps
    unfold expansion_loop
    split_ifs with hgd
    · rw [run_round_congr sim now gf yf gf2 yf2 pa { q with radius_m := expand_radius radius }
        hg hy]
      cases run_round sim now gf2 yf2 pa { q with radius_m := expand_radius radius } with
      | error e => rfl
      | ok ps => exact ih (expand_radius radius) ps (exps + 1)
    · rfl

/-- C4 (code-bug evidence): the expansion rounds re-invoke the fetch
collaborators with the ORIGINAL planner args — `planner_args` is built once
from the initial query and never updated after `user_query.radius_m` is
widened, so the widened radius never reaches a fetcher.  Part 1: two fetcher
pairs that agree on the initial planner args produce identical runs (the
fetchers are never consulted at any other argument).  Part 2: a
radius-sensitive fetcher that would return three records at radius ≥ 1200
still leaves the run with 1 result after two expansions to radius 1800. -/
theorem run_agent_search_stale_fetch_args :
    (∀ (sim : NameSim) (now : ℚ) (gf yf gf2 yf2 : Fetcher) (q : UserQuery) (maxExp : ℕ),
      gf (call_llm_planner q) = gf2 (call_llm_planner q) →
      yf (call_llm_planner q) = yf2 (call_llm_planner q) →
      run_agent_search sim now gf yf q maxExp = run_agent_search sim now gf2 yf2 q maxExp) ∧
    (run_agent_search simEq 0 radiusProbeFetch radiusProbeFetch qOneSrc 2).map
      (fun r => (r.expansions, r.final_radius, r.num_results)) = .ok (2, 1800, 1) := by
  refine ⟨?_, by with_unfolding_all decide⟩
  intro sim now gf yf gf2 yf2 q maxExp hg hy
  unfold run_agent_search
  rw [run_round_congr sim now gf yf gf2 yf2 (call_llm_planner q) q hg hy]
  cases run_round sim now gf2 yf2 (call_llm_planner q) q with
  | error e => rfl
  | ok ps0 =>
    dsimp only
    rw [expansion_loop_congr sim now gf yf gf2 yf2 (call_llm_planner q) q hg hy maxExp
      q.radius_m ps0 0]

/-- C4 witness: a fetcher that raises at every radius other than the original
800 yields exactly the same run as the total one-record fetcher — the widened
radii are never requested. -/
theorem run_agent_search_stale_fetch_args_witness :
    run_agent_search simOne 0 oneFetch oneFetch qOneSrc 2 =
      run_agent_search simOne 0 staleProbeFetch staleProbeFetch qOneSrc 2 :=
  run_agent_search_stale_fetch_args.1 simOne 0 oneFetch oneFetch staleProbeFetch staleProbeFetch
    qOneSrc 2 (by with_unfolding_all rfl) (by with_unfolding_all rfl)

end RestaurantFinder
